import Mathlib

/-
Verification of the BIGSI command-line core (`bigsi/__main__.py` and
`remcdbg/main.py`) against its specification.  The Python functions are
shallowly embedded as executable Lean definitions; Python exceptions are
modelled by `Option`/`Except`, Python truthiness by explicit `truthy*`
functions, and the process environment by a lookup function
`String → Option String`.
-/

namespace BigsiSpec

/-- Python list indexing `xs[i]`: non-negative indices from the front,
negative indices from the back, `none` models `IndexError`. -/
def pyGet {α : Type} (xs : List α) (i : Int) : Option α :=
  if 0 ≤ i then xs.get? i.toNat
  else if 0 ≤ i + xs.length then xs.get? (i + xs.length).toNat
  else none

/-- `math.ceil(a / b)` for non-negative integers (the source divides two
Python ints and takes `math.ceil`). -/
def ceilDiv (a b : Nat) : Nat := (a + b - 1) / b

/-- `bf_range_calc(index, i, N)` from `bigsi/__main__.py` lines 80-84:
`batch_size = ceil(m / N)`, then `i = list(range(0, m, batch_size))[i-1]`
and `j = i + batch_size`.  `m` stands for `index.bloom_filter_size`;
`none` models the `ZeroDivisionError` (N = 0), `ValueError` (step 0) and
`IndexError` (index out of range) the Python code can raise. -/
def bf_range_calc (m : Nat) (i : Int) (N : Nat) : Option (Nat × Nat) :=
  if N = 0 then none
  else
    let batch_size := ceilDiv m N
    if batch_size = 0 then none
    else
      (pyGet ((List.range (ceilDiv m batch_size)).map (fun t => t * batch_size))
          (i - 1)).map
        (fun s => (s, s + batch_size))

/-- Python truthiness of an optional string argument (`not x` is true for
`None` and for the empty string). -/
def truthyStr : Option String → Bool
  | none => false
  | some s => !(s == "")

/-- An environment, as seen through `os.environ.get`. -/
def Env : Type := String → Option String

/-- The empty process environment. -/
def envEmpty : Env := fun _ => none

/-- `os.environ.get(key, default)`. -/
def envGet (env : Env) (key dflt : String) : String :=
  (env key).getD dflt

/-- `BFSIZE = int(os.environ.get("BFSIZE", 25000000))` from
`bigsi/__main__.py` line 26.  `int()` on the environment string is modelled
by `String.toNat?` (`none` models the `ValueError` of a malformed value);
when the variable is absent, `int` receives the integer default. -/
def BFSIZE (env : Env) : Option Nat :=
  match env "BFSIZE" with
  | none => some 25000000
  | some s => s.toNat?

/-- `NUM_HASHES = int(os.environ.get("NUM_HASHES", 3))` from
`bigsi/__main__.py` line 27. -/
def NUM_HASHES (env : Env) : Option Nat :=
  match env "NUM_HASHES" with
  | none => some 3
  | some s => s.toNat?

/-- `BDB_DB_FILENAME = os.environ.get("BDB_DB_FILENAME", "./db")` from
`bigsi/__main__.py` line 65. -/
def BDB_DB_FILENAME (env : Env) : String :=
  envGet env "BDB_DB_FILENAME" "./db"

/-- The persistent state of one index: the bit-sliced matrix rows, the
registered sample names (column `c` is `samples[c]`) and the `(k, m, h)`
header. -/
structure IndexState where
  rows : List (List Bool)
  samples : List String
  header : Nat × Nat × Nat

/-- A call `BIGSI(db, cachesize=…, nproc=…, mode=…)` opening an index. -/
structure OpenCall where
  db : String
  cachesize : Int
  nproc : Int
  mode : String

/-- A call to the query engine `bigsi.cmds.search.search` with the keyword
arguments the CLI shim passes at `bigsi/__main__.py` lines 206-225. -/
structure QueryCall where
  seq : Option String
  fasta_file : Option String
  threshold : Rat
  output_format : String
  pipe : Bool
  score : Bool
deriving DecidableEq

/-- What the Python method `bigsi.search` returns: an error-message string,
the value returned by the query engine, or `None`. -/
inductive SearchRet
  | message (s : String)
  | result (q : QueryCall)
  | nonRet
deriving DecidableEq

/-- Modelled from the spec: the query engine (`bigsi.cmds.search.search`,
not under `src/`) resolves the query against the matrix; per §5 it reads
the row store only ("the only shared state across workers is the row store
(read-only during a query)"), so it is a pure function of the index state.
No claim depends on the content of its result, which is therefore
represented by the call record it received. -/
def query_engine (st : IndexState) (q : QueryCall) : QueryCall × IndexState :=
  (q, st)

/-- Everything observable about one `bigsi.search` invocation: the open
call it made, the query-engine call it performed (if any), the returned
value, and the index state afterwards. -/
structure SearchOutcome where
  opened : OpenCall
  queried : Option QueryCall
  ret : SearchRet
  state : IndexState

/-- The default of the `threshold` parameter of `bigsi.search`
(`bigsi/__main__.py` line 183: `threshold: hug.types.float_number = 1.0`). -/
def search_threshold_default : Rat := 1

/-- The default of `--threshold` of the `remcdbg query` sub-command
(`remcdbg/main.py` lines 98-99: `type=int`, `default=100`, a percent). -/
def remcdbg_threshold_default : Int := 100

/-- `bigsi.search` from `bigsi/__main__.py` lines 178-228.  `stdinFile`
stands for the temporary file the stdin branch writes.  The body:
resolve `db=None` to `BDB_DB_FILENAME`, open `BIGSI(db, …, mode="r")`,
force `pipe_out` for tsv/fasta, return the literal message when no input
source is given, otherwise call the query engine, and return its result
only when `pipe_out` is false. -/
def bigsi_search (env : Env) (st : IndexState) (db seq seqfile : Option String)
    (threshold : Rat) (output_format : String) (pipe_out pipe_in : Bool)
    (cachesize : Int) (score : Bool) (nproc : Int) (stdinFile : String) :
    SearchOutcome :=
  let db' := match db with
    | none => BDB_DB_FILENAME env
    | some d => d
  let oc : OpenCall := ⟨db', cachesize, nproc, "r"⟩
  let pipe_out' := if output_format = "tsv" ∨ output_format = "fasta" then
      true
    else pipe_out
  if ¬ pipe_in ∧ (¬ truthyStr seq ∧ ¬ truthyStr seqfile) then
    ⟨oc, none, SearchRet.message "-s or -f must be provided", st⟩
  else
    let q : QueryCall :=
      if seq = some "-" ∨ pipe_in then
        ⟨none, some stdinFile, threshold, output_format, pipe_out', score⟩
      else
        ⟨seq, seqfile, threshold, output_format, pipe_out', score⟩
    let r := query_engine st q
    if ¬ pipe_out' then ⟨oc, some q, SearchRet.result r.1, r.2⟩
    else ⟨oc, some q, SearchRet.nonRet, r.2⟩

/-- The Python exceptions the `bigsi.build` body can raise. -/
inductive PyError
  | assertionError
  | valueError (msg : String)
  | indexError
  | pyParseError
deriving DecidableEq

/-- Modelled from the spec: `humanfriendly.parse_size` (an external
library) parses a human-readable byte count; only its success or failure
matters here, so plain decimal strings are parsed and anything else is a
parse failure. -/
def parse_size (s : String) : Option Nat := s.toNat?

/-- The arguments `bigsi.build` passes to the core build pipeline
(`bigsi.cmds.build.build`, lines 155-162). -/
structure BuildCall where
  bloomfilter_filepaths : List String
  samples : List String
  max_memory : Option Nat
  lowmem : Bool
  bf_range : Nat × Nat
deriving DecidableEq

/-- `bigsi/__main__.py` lines 142-145: `if samples: assert len(samples)
== len(bloomfilters)` (the empty list is falsy) `else: samples =
bloomfilters`. -/
def resolve_samples (samples bloomfilters : List String) :
    Except PyError (List String) :=
  if samples = [] then Except.ok bloomfilters
  else if samples.length = bloomfilters.length then Except.ok samples
  else Except.error PyError.assertionError

/-- `bigsi/__main__.py` lines 146-149: parse `max_memory` with
`humanfriendly.parse_size` when it is a non-empty string, else `None`. -/
def resolve_max_memory (max_memory : String) : Except PyError (Option Nat) :=
  if max_memory = "" then Except.ok none
  else match parse_size max_memory with
    | some b => Except.ok (some b)
    | none => Except.error PyError.pyParseError

/-- The validation prefix of `bigsi.build` from `bigsi/__main__.py` lines
131-153, in source order: resolve the sample names, parse `max_memory`,
raise `ValueError` on a batch index below 1, then compute
`bf_range_calc`.  `m` is `index.bloom_filter_size` of the opened index. -/
def build_cli (m : Nat) (bloomfilters samples : List String)
    (max_memory : String) (lowmem : Bool) (i : Int) (N : Nat) :
    Except PyError BuildCall :=
  match resolve_samples samples bloomfilters with
  | Except.error e => Except.error e
  | Except.ok samples' =>
    match resolve_max_memory max_memory with
    | Except.error e => Except.error e
    | Except.ok max_memory_bytes =>
      if i < 1 then
        Except.error (PyError.valueError
          "Batch index is one-based. Use 1 for first batch, not 0.")
      else
        match bf_range_calc m i N with
        | none => Except.error PyError.indexError
        | some r =>
            Except.ok ⟨bloomfilters, samples', max_memory_bytes, lowmem, r⟩

/-- Modelled from the spec: the core build pipeline
(`bigsi.cmds.build.build`, not under `src/`) writes the rows of `bf_range`
and then registers the new sample names (§4.F: "Finally, register all new
sample names").  Row contents depend on the Bloom filter files, which are
outside the model; sample registration is what the claims observe. -/
def build_core (st : IndexState) (c : BuildCall) : IndexState :=
  ⟨st.rows, st.samples ++ c.samples, st.header⟩

/-- One `bigsi.build` invocation against an index state: on any error in
the validation prefix the core pipeline is never called and the state is
returned unchanged; otherwise the core pipeline runs. -/
def build_run (st : IndexState) (bloomfilters samples : List String)
    (max_memory : String) (lowmem : Bool) (i : Int) (N : Nat) :
    IndexState × Except PyError BuildCall :=
  match build_cli st.header.2.1 bloomfilters samples max_memory lowmem i N with
  | Except.error e => (st, Except.error e)
  | Except.ok c => (build_core st c, Except.ok c)

/-- What the Python method `bigsi.bloom` returns before reaching the core
`bloom` command: either the literal message, or it proceeds to call the
core with the computed batch size and range start list (and returns
`None`; the call record is kept so the proceeding case is observable). -/
inductive BloomRet
  | message (s : String)
  | proceeds (outfile : String) (batch_size : Nat) (bf_range : List Nat)
deriving DecidableEq

/-- `bigsi.bloom` from `bigsi/__main__.py` lines 111-127.  When a cortex
graph `ctx` is given, `kmers` is rebound to a generator (which is always
truthy in Python, even when empty); the message is returned only when the
resulting `kmers` and `seqfile` are both falsy.  Otherwise
`batch_size = ceil(m / N)` and `bf_range = range(0, m, batch_size)` are
computed and the core `bloom` command is called. -/
def bigsi_bloom (m : Nat) (outfile : String) (ctx kmers seqfile : Option String)
    (N : Nat) : Option BloomRet :=
  let kmersTruthy := if truthyStr ctx then true else truthyStr kmers
  if kmersTruthy = false ∧ truthyStr seqfile = false then
    some (BloomRet.message "--kmers or --seqfile must be provided")
  else
    if N = 0 then none
    else
      let batch_size := ceilDiv m N
      if batch_size = 0 then none
      else
        some (BloomRet.proceeds outfile batch_size
          ((List.range (ceilDiv m batch_size)).map (fun t => t * batch_size)))

/-- Modelled from the spec: `BIGSI.merge` (`bigsi/graph`, not under
`src/`) with the receiver as acceptor and the argument as donor; §4.F:
for each row write `concat(row_a, row_d)` and append the donor's registry
entries, so the donor's columns occupy `[n_a, n_a + n_d)`. -/
def merge_core (a d : IndexState) : IndexState :=
  ⟨List.zipWith (fun ra rd => ra ++ rd) a.rows d.rows,
    a.samples ++ d.samples, a.header⟩

/-- `bigsi.merge` from `bigsi/__main__.py` lines 166-168:
`BIGSI(db1).merge(BIGSI(db2))`, then
`return {"result": "merged %s into %s." % (db2, db1)}`.  `st1`/`st2` are
the states behind `db1`/`db2`; the first component is the new state of
`db1` (the acceptor). -/
def bigsi_merge (st1 st2 : IndexState) (db1 db2 : String) :
    IndexState × String :=
  (merge_core st1 st2, "merged " ++ db2 ++ " into " ++ db1 ++ ".")

/-- `run_subtool` from `remcdbg/main.py` lines 25-41: the module whose
`run` is imported for a given `args.command`, selected by string
equality; `none` models the unbound-`run` `NameError` for any other
command. -/
def run_subtool_module (command : String) : Option String :=
  if command = "insert" then some "remcdbg.cmds.insert"
  else if command = "query" then some "remcdbg.cmds.query"
  else if command = "stats" then some "remcdbg.cmds.stats"
  else if command = "samples" then some "remcdbg.cmds.samples"
  else if command = "kmers" then some "remcdbg.cmds.kmers"
  else if command = "compress" then some "remcdbg.cmds.compress"
  else if command = "shutdown" then some "remcdbg.cmds.shutdown"
  else if command = "bitcount" then some "remcdbg.cmds.bitcount"
  else none

/-- The call `run(parser, args, CONN_CONFIG)` made at `remcdbg/main.py`
line 44, tagged with the module the `run` was imported from. -/
structure SubtoolCall where
  module : String
  parser : String
  args : String
  conn : List (String × Int)
deriving DecidableEq

/-- `run_subtool(parser, args)` from `remcdbg/main.py` lines 25-44:
select the sub-command module by `args.command` and invoke its `run` with
`(parser, args, CONN_CONFIG)`. -/
def run_subtool (parser argsTok command : String)
    (conn : List (String × Int)) : Option SubtoolCall :=
  (run_subtool_module command).map (fun mo => ⟨mo, parser, argsTok, conn⟩)

/-- A small concrete index state used to instantiate theorems. -/
def st0 : IndexState := ⟨[[true], [false]], ["S1"], (31, 16, 3)⟩

/-- C7: for each of the eight sub-command strings, `run_subtool` selects
the matching module's `run` by string equality on `args.command` and
invokes it with `(parser, args, CONN_CONFIG)`; routing happens entirely
in this CLI shim. -/
theorem run_subtool_dispatch (p a : String) (c : List (String × Int)) :
    run_subtool p a "insert" c = some ⟨"remcdbg.cmds.insert", p, a, c⟩ ∧
    run_subtool p a "query" c = some ⟨"remcdbg.cmds.query", p, a, c⟩ ∧
    run_subtool p a "stats" c = some ⟨"remcdbg.cmds.stats", p, a, c⟩ ∧
    run_subtool p a "samples" c = some ⟨"remcdbg.cmds.samples", p, a, c⟩ ∧
    run_subtool p a "kmers" c = some ⟨"remcdbg.cmds.kmers", p, a, c⟩ ∧
    run_subtool p a "compress" c = some ⟨"remcdbg.cmds.compress", p, a, c⟩ ∧
    run_subtool p a "shutdown" c = some ⟨"remcdbg.cmds.shutdown", p, a, c⟩ ∧
    run_subtool p a "bitcount" c = some ⟨"remcdbg.cmds.bitcount", p, a, c⟩ :=
  ⟨rfl, rfl, rfl, rfl, rfl, rfl, rfl, rfl⟩

/-- C3: when `bigsi.build` is called with an empty sample-name list, the
sample names passed on to the core build pipeline are exactly the Bloom
filter file paths, in order. -/
theorem build_empty_samples (m : Nat) (bfs : List String) (mm : String)
    (lm : Bool) (i : Int) (N : Nat) (c : BuildCall)
    (h : build_cli m bfs [] mm lm i N = Except.ok c) :
    c.samples = bfs ∧ c.bloomfilter_filepaths = bfs := by
  have hres : resolve_samples [] bfs = Except.ok bfs := rfl
  unfold build_cli at h
  rw [hres] at h
  cases hmm : resolve_max_memory mm <;> rw [hmm] at h <;> dsimp only at h
  · cases h
  · by_cases hi : i < 1
    · rw [if_pos hi] at h
      cases h
    · rw [if_neg hi] at h
      cases hr : bf_range_calc m i N <;> rw [hr] at h
      · cases h
      · cases h
        exact ⟨rfl, rfl⟩

/-- Witness for `build_empty_samples` at a concrete successful build. -/
theorem build_empty_samples_witness :
    build_cli 16 ["a.bloom", "b.bloom"] [] "" false 1 1 =
      Except.ok
        ⟨["a.bloom", "b.bloom"], ["a.bloom", "b.bloom"], none, false, (0, 16)⟩ ∧
    (⟨["a.bloom", "b.bloom"], ["a.bloom", "b.bloom"], none, false,
        (0, 16)⟩ : BuildCall).samples = ["a.bloom", "b.bloom"] ∧
    (⟨["a.bloom", "b.bloom"], ["a.bloom", "b.bloom"], none, false,
        (0, 16)⟩ : BuildCall).bloomfilter_filepaths = ["a.bloom", "b.bloom"] :=
  ⟨rfl,
    build_empty_samples 16 ["a.bloom", "b.bloom"] "" false 1 1
      ⟨["a.bloom", "b.bloom"], ["a.bloom", "b.bloom"], none, false, (0, 16)⟩ rfl⟩

/-- C8: a `bigsi.build` call with batch index `i < 1` (and otherwise
well-formed sample list and empty `max_memory`) raises
`ValueError("Batch index is one-based. Use 1 for first batch, not 0.")`
before computing the row range, and the index state is unchanged. -/
theorem build_batch_index_guard (st : IndexState) (bfs samples : List String)
    (mm : String) (lm : Bool) (i : Int) (N : Nat)
    (hi : i < 1) (hs : samples = [] ∨ samples.length = bfs.length)
    (hmm : mm = "") :
    build_run st bfs samples mm lm i N =
      (st, Except.error (PyError.valueError
        "Batch index is one-based. Use 1 for first batch, not 0.")) := by
  subst hmm
  have hres : ∃ s, resolve_samples samples bfs = Except.ok s := by
    unfold resolve_samples
    rcases hs with hs | hs
    · exact ⟨bfs, by simp [hs]⟩
    · by_cases he : samples = []
      · exact ⟨bfs, by simp [he]⟩
      · exact ⟨samples, by simp [he, hs]⟩
  obtain ⟨s, hres⟩ := hres
  unfold build_run build_cli
  rw [hres]
  simp [resolve_max_memory, hi]

/-- Witness for `build_batch_index_guard` at batch index 0. -/
theorem build_batch_index_guard_witness :
    build_run st0 ["a.bloom"] [] "" false 0 1 =
      (st0, Except.error (PyError.valueError
        "Batch index is one-based. Use 1 for first batch, not 0.")) :=
  build_batch_index_guard st0 ["a.bloom"] [] "" false 0 1 (by decide)
    (Or.inl rfl) rfl

/-- C6: with `BFSIZE`, `NUM_HASHES` and `BDB_DB_FILENAME` absent from the
environment, the module-load defaults are 25000000, 3 and "./db", and a
`search` call with `db = None` opens the index at `BDB_DB_FILENAME`. -/
theorem env_defaults (env : Env)
    (h1 : env "BFSIZE" = none) (h2 : env "NUM_HASHES" = none)
    (h3 : env "BDB_DB_FILENAME" = none) :
    BFSIZE env = some 25000000 ∧ NUM_HASHES env = some 3 ∧
    BDB_DB_FILENAME env = "./db" ∧
    ∀ st seq seqfile t fmt po pi cs sc np sf,
      (bigsi_search env st none seq seqfile t fmt po pi cs sc np sf).opened.db =
        BDB_DB_FILENAME env := by
  refine ⟨by simp [BFSIZE, h1], by simp [NUM_HASHES, h2],
    by simp [BDB_DB_FILENAME, envGet, h3], ?_⟩
  intro st seq seqfile t fmt po pi cs sc np sf
  unfold bigsi_search
  dsimp only
  repeat' split
  all_goals rfl

/-- Witness for `env_defaults` at the empty environment. -/
theorem env_defaults_witness :
    BFSIZE envEmpty = some 25000000 ∧ NUM_HASHES envEmpty = some 3 ∧
    BDB_DB_FILENAME envEmpty = "./db" ∧
    ∀ st seq seqfile t fmt po pi cs sc np sf,
      (bigsi_search envEmpty st none seq seqfile t fmt po pi cs sc np
          sf).opened.db = BDB_DB_FILENAME envEmpty :=
  env_defaults envEmpty rfl rfl rfl

/-- C10: a `search` call with `pipe_in` false and both `seq` and
`seqfile` absent returns the literal string "-s or -f must be provided",
and a `bloom` call with no `ctx`, no `kmers` and no `seqfile` returns the
literal string "--kmers or --seqfile must be provided"; neither raises. -/
theorem missing_input_messages :
    (∀ env st db t fmt po cs sc np sf,
      (bigsi_search env st db none none t fmt po false cs sc np sf).ret =
        SearchRet.message "-s or -f must be provided") ∧
    ∀ m outfile N,
      bigsi_bloom m outfile none none none N =
        some (BloomRet.message "--kmers or --seqfile must be provided") := by
  constructor
  · intro env st db t fmt po cs sc np sf
    unfold bigsi_search
    simp [truthyStr]
  · intro m outfile N
    unfold bigsi_bloom
    simp [truthyStr]

/-- C5: every `bigsi.search` invocation opens the index with
`mode = "r"`, and the index state (rows, sample registry, header) is
unchanged by the search. -/
theorem search_readonly (env : Env) (st : IndexState)
    (db seq seqfile : Option String) (t : Rat) (fmt : String) (po pi : Bool)
    (cs : Int) (sc : Bool) (np : Int) (sf : String) :
    (bigsi_search env st db seq seqfile t fmt po pi cs sc np sf).opened.mode =
      "r" ∧
    (bigsi_search env st db seq seqfile t fmt po pi cs sc np sf).state = st := by
  constructor <;>
    · unfold bigsi_search
      dsimp only
      repeat' split
      all_goals rfl

/-- C9 counterexample: a `search` call with `output_format = "tsv"` (so
`pipe_out` is forced true) but no input source returns the literal
message string, not `None`. -/
theorem search_tsv_message_counterexample :
    (bigsi_search envEmpty st0 none none none 1 "tsv" false false 4 false 4
        "").ret = SearchRet.message "-s or -f must be provided" ∧
    (bigsi_search envEmpty st0 none none none 1 "tsv" false false 4 false 4
        "").ret ≠ SearchRet.nonRet := by
  constructor
  · rfl
  · intro h
    cases h

/-- C9 (amended): with `output_format` "tsv" or "fasta", `pipe_out` is
forced true; whenever a query is actually performed (`pipe_in` set, or a
truthy `seq` or `seqfile`), the call returns `None`, and any performed
query carries `pipe = true`.  (The missing-input message is still
returned as a value even under tsv/fasta, per the counterexample.) -/
theorem search_pipe_out_forced (env : Env) (st : IndexState)
    (db seq seqfile : Option String) (t : Rat) (fmt : String) (po pi : Bool)
    (cs : Int) (sc : Bool) (np : Int) (sf : String)
    (hfmt : fmt = "tsv" ∨ fmt = "fasta")
    (hin : pi = true ∨ truthyStr seq = true ∨ truthyStr seqfile = true) :
    (bigsi_search env st db seq seqfile t fmt po pi cs sc np sf).ret =
      SearchRet.nonRet ∧
    ∀ q, (bigsi_search env st db seq seqfile t fmt po pi cs sc np
        sf).queried = some q → q.pipe = true := by
  unfold bigsi_search
  dsimp only
  rw [if_pos hfmt]
  have hmsg : ¬ (¬ pi = true ∧
      (¬ truthyStr seq = true ∧ ¬ truthyStr seqfile = true)) := by
    rcases hin with h | h | h <;> simp [h]
  rw [if_neg hmsg]
  constructor
  · rfl
  · intro q hq
    cases hq
    split <;> rfl

/-- Witness for `search_pipe_out_forced` at a concrete tsv search. -/
theorem search_pipe_out_forced_witness :
    (bigsi_search envEmpty st0 none (some "ACGT") none 1 "tsv" false false 4
        false 4 "").ret = SearchRet.nonRet ∧
    ∀ q, (bigsi_search envEmpty st0 none (some "ACGT") none 1 "tsv" false
        false 4 false 4 "").queried = some q → q.pipe = true :=
  search_pipe_out_forced envEmpty st0 none (some "ACGT") none 1 "tsv" false
    false 4 false 4 "" (Or.inl rfl) (Or.inr (Or.inl rfl))

/-- C2 counterexample: the `search` operation accepts a threshold of 2 —
a value outside `[0, 1]` — and forwards it unchanged to the query
engine. -/
theorem threshold_unbounded_counterexample :
    (bigsi_search envEmpty st0 (some "db") (some "ACGT") none 2 "json" false
        false 4 false 4 "").queried =
      some ⟨some "ACGT", none, 2, "json", false, false⟩ ∧
    ¬ ((2 : Rat) ≤ 1) := by
  constructor
  · rfl
  · decide

/-- C2 (amended): the `threshold` parameter of `bigsi.search` is a float
defaulting to 1.0 (the default requests exact containment), but no bound
restricts it to `[0, 1]`: any value is forwarded unchanged to the query
engine; the `remcdbg query` threshold is an integer percentage defaulting
to 100. -/
theorem threshold_passthrough (env : Env) (st : IndexState)
    (db : Option String) (s : String) (seqfile : Option String) (t : Rat)
    (fmt : String) (po : Bool) (cs : Int) (sc : Bool) (np : Int) (sf : String)
    (hs : s ≠ "") (hdash : s ≠ "-") :
    search_threshold_default = 1 ∧ remcdbg_threshold_default = 100 ∧
    (bigsi_search env st db (some s) seqfile t fmt po false cs sc np
        sf).queried =
      some ⟨some s, seqfile, t, fmt,
        (if fmt = "tsv" ∨ fmt = "fasta" then true else po), sc⟩ := by
  refine ⟨rfl, rfl, ?_⟩
  unfold bigsi_search
  dsimp only
  have hmsg : ¬ (¬ false = true ∧
      (¬ truthyStr (some s) = true ∧ ¬ truthyStr seqfile = true)) := by
    simp [truthyStr, hs]
  rw [if_neg hmsg]
  have hq : ¬ ((some s : Option String) = some "-" ∨ false = true) := by
    simp [hdash]
  rw [if_neg hq]
  split <;> first
    | rfl
    | split <;> rfl

/-- Witness for `threshold_passthrough` at threshold 7/2. -/
theorem threshold_passthrough_witness :
    search_threshold_default = 1 ∧ remcdbg_threshold_default = 100 ∧
    (bigsi_search envEmpty st0 (some "db") (some "ACGT") none (7 / 2) "json"
        false false 4 false 4 "").queried =
      some ⟨some "ACGT", none, 7 / 2, "json",
        (if ("json" : String) = "tsv" ∨ ("json" : String) = "fasta" then true
          else false), false⟩ :=
  threshold_passthrough envEmpty st0 (some "db") "ACGT" none (7 / 2) "json"
    false 4 false 4 "" (by decide) (by decide)

/-- C4: the CLI `merge(db1, db2)` invokes `db1`'s merge with `db2` as
argument — `db1` is the acceptor, `db2` the donor — so the donor's
columns are appended after the acceptor's (each merged row is
`row_a ++ row_d`, and donor column `c` lands at column `n_a + c`), and
the reported message states that `db2` was merged into `db1`. -/
theorem merge_acceptor_donor (st1 st2 : IndexState) (db1 db2 : String) :
    (bigsi_merge st1 st2 db1 db2).2 =
      "merged " ++ db2 ++ " into " ++ db1 ++ "." ∧
    (bigsi_merge st1 st2 db1 db2).1 = merge_core st1 st2 ∧
    (merge_core st1 st2).samples = st1.samples ++ st2.samples ∧
    (∀ c, c < st2.samples.length →
      (merge_core st1 st2).samples.get? (st1.samples.length + c) =
        st2.samples.get? c) ∧
    ∀ r ra rd, st1.rows.get? r = some ra → st2.rows.get? r = some rd →
      (merge_core st1 st2).rows.get? r = some (ra ++ rd) := by
  refine ⟨rfl, rfl, rfl, ?_, ?_⟩
  · intro c hc
    show (st1.samples ++ st2.samples).get? (st1.samples.length + c) = _
    rw [List.get?_append_right (Nat.le_add_right _ _)]
    congr 1
    omega
  · intro r ra rd hra hrd
    show (List.zipWith (fun x y => x ++ y) st1.rows st2.rows).get? r = _
    have h1 : r < st1.rows.length := (List.get?_eq_some.mp hra).1
    have h2 : r < st2.rows.length := (List.get?_eq_some.mp hrd).1
    have hz : (List.zipWith (fun x y : List Bool => x ++ y) st1.rows
        st2.rows).get? r = some ((st1.rows.get ⟨r, h1⟩) ++
          (st2.rows.get ⟨r, h2⟩)) := by
      rw [List.get?_eq_get (by rw [List.length_zipWith]; omega)]
      simp [List.get_zipWith]
    rw [hz]
    have hra' : st1.rows.get ⟨r, h1⟩ = ra := by
      have := List.get?_eq_get h1
      rw [this] at hra
      exact Option.some.inj hra
    have hrd' : st2.rows.get ⟨r, h2⟩ = rd := by
      have := List.get?_eq_get h2
      rw [this] at hrd
      exact Option.some.inj hrd
    rw [hra', hrd']

/-- Witness for `merge_acceptor_donor` at two concrete one-row states. -/
theorem merge_acceptor_donor_witness :
    (bigsi_merge ⟨[[true]], ["S1"], (31, 16, 3)⟩
        ⟨[[false]], ["S2"], (31, 16, 3)⟩ "dbA" "dbB").2 =
      "merged " ++ "dbB" ++ " into " ++ "dbA" ++ "." ∧
    (bigsi_merge ⟨[[true]], ["S1"], (31, 16, 3)⟩
        ⟨[[false]], ["S2"], (31, 16, 3)⟩ "dbA" "dbB").1 =
      merge_core ⟨[[true]], ["S1"], (31, 16, 3)⟩
        ⟨[[false]], ["S2"], (31, 16, 3)⟩ ∧
    (merge_core ⟨[[true]], ["S1"], (31, 16, 3)⟩
        ⟨[[false]], ["S2"], (31, 16, 3)⟩).samples = ["S1"] ++ ["S2"] ∧
    (∀ c, c < (["S2"] : List String).length →
      (merge_core ⟨[[true]], ["S1"], (31, 16, 3)⟩
          ⟨[[false]], ["S2"], (31, 16, 3)⟩).samples.get?
            ((["S1"] : List String).length + c) =
        (["S2"] : List String).get? c) ∧
    ∀ r ra rd, ([[true]] : List (List Bool)).get? r = some ra →
      ([[false]] : List (List Bool)).get? r = some rd →
      (merge_core ⟨[[true]], ["S1"], (31, 16, 3)⟩
          ⟨[[false]], ["S2"], (31, 16, 3)⟩).rows.get? r = some (ra ++ rd) :=
  merge_acceptor_donor ⟨[[true]], ["S1"], (31, 16, 3)⟩
    ⟨[[false]], ["S2"], (31, 16, 3)⟩ "dbA" "dbB"

/-- `ceilDiv a b ≤ c` iff `a ≤ b * c`, for positive `b`. -/
theorem ceilDiv_le_iff (a b c : Nat) (hb : 0 < b) :
    ceilDiv a b ≤ c ↔ a ≤ b * c := by
  unfold ceilDiv
  rw [← Nat.lt_succ_iff, Nat.div_lt_iff_lt_mul hb, Nat.succ_mul,
    Nat.mul_comm c b]
  generalize b * c = x
  omega

/-- `a ≤ b * ceilDiv a b`, for positive `b`. -/
theorem le_mul_ceilDiv (a b : Nat) (hb : 0 < b) : a ≤ b * ceilDiv a b :=
  (ceilDiv_le_iff a b (ceilDiv a b) hb).mp le_rfl

/-- `ceilDiv` of positive arguments is positive. -/
theorem ceilDiv_pos (a b : Nat) (ha : 0 < a) (hb : 0 < b) :
    0 < ceilDiv a b := by
  by_contra h
  have h0 : ceilDiv a b ≤ 0 := by omega
  have := (ceilDiv_le_iff a b 0 hb).mp h0
  omega

/-- Reduction of `bf_range_calc` at a valid one-based batch index. -/
theorem bf_range_calc_eq (m N i : Nat) (hN : 0 < N)
    (hb : 0 < ceilDiv m N) (h1 : 1 ≤ i)
    (hi : i - 1 < ceilDiv m (ceilDiv m N)) :
    bf_range_calc m (i : Int) N =
      some ((i - 1) * ceilDiv m N, (i - 1) * ceilDiv m N + ceilDiv m N) := by
  unfold bf_range_calc
  rw [if_neg (by omega : ¬ N = 0)]
  dsimp only
  rw [if_neg (by omega : ¬ ceilDiv m N = 0)]
  unfold pyGet
  rw [if_pos (by omega : (0 : Int) ≤ (i : Int) - 1)]
  have htn : ((i : Int) - 1).toNat = i - 1 := by omega
  rw [htn, List.get?_map, List.get?_range hi]
  rfl

/-- C1 counterexample: with Bloom width `m = 10` and `N = 4` partitions,
batch `i = 4` yields the interval `(9, 12)` whose end exceeds `m`, so
`bf_range_calc` does not always return an interval with `end ≤ m` and the
returned intervals do not partition `[0, m)` as stated. -/
theorem bf_range_calc_counterexample :
    bf_range_calc 10 4 4 = some (9, 12) ∧ ¬ ((12 : Nat) ≤ 10) := by
  constructor
  · rfl
  · decide

/-- C1 (amended): for `m ≥ 1` and `N ≥ 1`, put `b = ceil(m/N)` and
`K = ceil(m/b)`.  Then `1 ≤ b`, `K ≤ N`, and for every one-based batch
index `1 ≤ i ≤ K`, `bf_range_calc` returns the half-open interval
`[(i-1)·b, (i-1)·b + b)` with `0 ≤ start < end` and `start < m` (the end
of the last interval may exceed `m`); the `K` intervals, clipped at `m`,
partition `[0, m)` — every row `r < m` lies in exactly one of them — and
every batch index `i > K` (in particular indices up to `N` when `K < N`)
raises `IndexError` instead of returning an interval. -/
theorem bf_range_calc_partition (m N : Nat) (hm : 1 ≤ m) (hN : 1 ≤ N) :
    1 ≤ ceilDiv m N ∧
    ceilDiv m (ceilDiv m N) ≤ N ∧
    (∀ i : Nat, 1 ≤ i → i ≤ ceilDiv m (ceilDiv m N) →
      bf_range_calc m (i : Int) N =
        some ((i - 1) * ceilDiv m N,
          (i - 1) * ceilDiv m N + ceilDiv m N) ∧
      (i - 1) * ceilDiv m N < m ∧
      (i - 1) * ceilDiv m N < (i - 1) * ceilDiv m N + ceilDiv m N) ∧
    (∀ r, r < m → ∃! i : Nat,
      (1 ≤ i ∧ i ≤ ceilDiv m (ceilDiv m N)) ∧
      (i - 1) * ceilDiv m N ≤ r ∧ r < (i - 1) * ceilDiv m N + ceilDiv m N) ∧
    ∀ i : Nat, ceilDiv m (ceilDiv m N) < i →
      bf_range_calc m (i : Int) N = none := by
  have hb : 0 < ceilDiv m N := ceilDiv_pos m N hm hN
  have hmb : m ≤ N * ceilDiv m N := le_mul_ceilDiv m N hN
  have hK : ceilDiv m (ceilDiv m N) ≤ N := by
    rw [ceilDiv_le_iff m (ceilDiv m N) N hb, Nat.mul_comm]
    exact hmb
  have hmK : m ≤ ceilDiv m N * ceilDiv m (ceilDiv m N) :=
    le_mul_ceilDiv m (ceilDiv m N) hb
  refine ⟨hb, hK, ?_, ?_, ?_⟩
  · intro i h1 hiK
    have hstart : (i - 1) * ceilDiv m N < m := by
      by_contra hcon
      have : ceilDiv m (ceilDiv m N) ≤ i - 1 := by
        rw [ceilDiv_le_iff m (ceilDiv m N) (i - 1) hb, Nat.mul_comm]
        omega
      omega
    exact ⟨bf_range_calc_eq m N i hN hb h1 (by omega), hstart, by omega⟩
  · intro r hr
    have h1 : r / ceilDiv m N * ceilDiv m N ≤ r :=
      Nat.div_mul_le_self r (ceilDiv m N)
    have h2 : r < r / ceilDiv m N * ceilDiv m N + ceilDiv m N :=
      Nat.lt_div_mul_add hb
    have h3 : r / ceilDiv m N < ceilDiv m (ceilDiv m N) := by
      apply (Nat.div_lt_iff_lt_mul hb).mpr
      calc r < m := hr
        _ ≤ ceilDiv m N * ceilDiv m (ceilDiv m N) := hmK
        _ = ceilDiv m (ceilDiv m N) * ceilDiv m N := Nat.mul_comm _ _
    refine ⟨r / ceilDiv m N + 1,
      ⟨⟨Nat.le_add_left 1 _, Nat.succ_le_of_lt h3⟩, ?_, ?_⟩, ?_⟩
    · rw [Nat.add_sub_cancel]
      exact h1
    · rw [Nat.add_sub_cancel]
      exact h2
    · rintro j ⟨⟨hj1, hjK⟩, hlo, hhi⟩
      have e1 : j - 1 ≤ r / ceilDiv m N :=
        (Nat.le_div_iff_mul_le hb).mpr hlo
      have e2 : r / ceilDiv m N < j := by
        apply (Nat.div_lt_iff_lt_mul hb).mpr
        obtain ⟨j', rfl⟩ : ∃ j', j = j' + 1 := ⟨j - 1, by omega⟩
        have hsplit : (j' + 1 - 1) * ceilDiv m N + ceilDiv m N =
            (j' + 1) * ceilDiv m N := by
          rw [Nat.add_sub_cancel, Nat.succ_mul]
        rw [← hsplit]
        exact hhi
      exact Nat.le_antisymm (Nat.sub_le_iff_le_add.mp e1)
        (Nat.succ_le_of_lt e2)
  · intro i hi
    unfold bf_range_calc
    rw [if_neg (by omega : ¬ N = 0)]
    dsimp only
    rw [if_neg (by omega : ¬ ceilDiv m N = 0)]
    unfold pyGet
    have h1i : 1 ≤ i := by
      have := ceilDiv_pos m (ceilDiv m N) hm hb
      omega
    rw [if_pos (by omega : (0 : Int) ≤ (i : Int) - 1)]
    have htn : ((i : Int) - 1).toNat = i - 1 := by omega
    rw [htn]
    rw [List.get?_eq_none.mpr (by
      rw [List.length_map, List.length_range]
      omega)]
    rfl

/-- Witness for `bf_range_calc_partition` at `m = 10`, `N = 4`. -/
theorem bf_range_calc_partition_witness :
    1 ≤ ceilDiv 10 4 ∧
    ceilDiv 10 (ceilDiv 10 4) ≤ 4 ∧
    (∀ i : Nat, 1 ≤ i → i ≤ ceilDiv 10 (ceilDiv 10 4) →
      bf_range_calc 10 (i : Int) 4 =
        some ((i - 1) * ceilDiv 10 4,
          (i - 1) * ceilDiv 10 4 + ceilDiv 10 4) ∧
      (i - 1) * ceilDiv 10 4 < 10 ∧
      (i - 1) * ceilDiv 10 4 < (i - 1) * ceilDiv 10 4 + ceilDiv 10 4) ∧
    (∀ r, r < 10 → ∃! i : Nat,
      (1 ≤ i ∧ i ≤ ceilDiv 10 (ceilDiv 10 4)) ∧
      (i - 1) * ceilDiv 10 4 ≤ r ∧
        r < (i - 1) * ceilDiv 10 4 + ceilDiv 10 4) ∧
    ∀ i : Nat, ceilDiv 10 (ceilDiv 10 4) < i →
      bf_range_calc 10 (i : Int) 4 = none :=
  bf_range_calc_partition 10 4 (by decide) (by decide)

end BigsiSpec
